import Mathlib

/-!
Shallow embedding of the head-cursor control pipeline of `AlexVision.py`
(deadzone/hysteresis velocity control, slew limiting, calibration medians,
yaw smoothing, cursor integration with clamping, and the mouth / brow /
blink gesture state machines of the main loop), together with theorems
settling the frozen claims about it.  Real-valued pixel quantities are
modelled as rationals; the two aspect-ratio helpers, which take Euclidean
norms, are modelled over the reals.
-/

namespace AlexVision

/-! ### Configuration constants (module-level defaults of the source) -/

def VMAX_X : ℚ := 300
def VMAX_Y : ℚ := 300
def DEADZONE_YAW : ℚ := 10
def DEADZONE_ROLL : ℚ := 10
def HYSTERESIS_DEG : ℚ := 1
def TAU_VEL : ℚ := 18 / 100
def YAW_SMOOTHING : ℚ := 3 / 10
def BROW_BASELINE_FRAMES : ℕ := 60
def BROW_UP_FACTOR : ℚ := 20 / 100
def BROW_HOLD_TIME : ℚ := 65 / 100
def MOUTH_OPEN_THRESH : ℚ := 38 / 100
def BLINK_EAR_THRESH : ℚ := 22 / 100
def BLINK_MIN_FRAMES : ℕ := 1
def TRIPLE_BLINK_WINDOW : ℚ := 12 / 10
def TRIPLE_BLINK_HOLD : ℚ := 2 / 10
def SELECT_CLICK_COOLDOWN : ℚ := 2

/-! ### Velocity controller: `update_velocity_constant` -/

/-- Runtime-tunable parameter dictionary `params` of the main loop. -/
structure Params where
  deadzone_yaw : ℚ
  deadzone_roll : ℚ
  hysteresis_deg : ℚ
  vmax_x : ℚ
  vmax_y : ℚ
  tau_vel : ℚ
deriving DecidableEq

/-- The default `params` dictionary built at loop start. -/
def defaultParams : Params :=
  { deadzone_yaw := DEADZONE_YAW, deadzone_roll := DEADZONE_ROLL,
    hysteresis_deg := HYSTERESIS_DEG, vmax_x := VMAX_X, vmax_y := VMAX_Y,
    tau_vel := TAU_VEL }

/-- The function `np.sign`: 1 on positives, -1 on negatives, 0 at 0. -/
def npSign (x : ℚ) : ℚ := if 0 < x then 1 else if x < 0 then -1 else 0

/-- X-axis (yaw) three-zone target velocity of `update_velocity_constant`. -/
def v_target_x (dyaw : ℚ) (p : Params) (vprev : ℚ) : ℚ :=
  if p.deadzone_yaw + p.hysteresis_deg < |dyaw| then p.vmax_x * npSign dyaw
  else if |dyaw| < p.deadzone_yaw then 0
  else if 1 / 1000 < |vprev| then p.vmax_x * npSign vprev else 0

/-- Y-axis (roll) three-zone target velocity of `update_velocity_constant`.
Note the sign inversion on every branch that the source applies on this axis. -/
def v_target_y (droll : ℚ) (p : Params) (vprev : ℚ) : ℚ :=
  if p.deadzone_roll + p.hysteresis_deg < |droll| then -p.vmax_y * npSign droll
  else if |droll| < p.deadzone_roll then 0
  else if 1 / 1000 < |vprev| then -p.vmax_y * npSign vprev else 0

/-- Slew coefficient `alpha = dt / (tau + dt) if tau > 0 else 1.0`. -/
def alphaOf (tau dt : ℚ) : ℚ := if 0 < tau then dt / (tau + dt) else 1

/-- The function `update_velocity_constant(dyaw, droll, params, v_cmd_prev, dt)`:
per-axis deadzone / hysteresis target selection followed by first-order
slew toward the target. -/
def update_velocity_constant (dyaw droll : ℚ) (p : Params) (v_cmd_prev : ℚ × ℚ)
    (dt : ℚ) : ℚ × ℚ :=
  (v_cmd_prev.1 + (v_target_x dyaw p v_cmd_prev.1 - v_cmd_prev.1) * alphaOf p.tau_vel dt,
   v_cmd_prev.2 + (v_target_y droll p v_cmd_prev.2 - v_cmd_prev.2) * alphaOf p.tau_vel dt)

/-! ### Slew bound lemmas -/

lemma abs_vmax_mul_npSign (m z : ℚ) (hm : 0 ≤ m) : |m * npSign z| ≤ m := by
  unfold npSign
  split
  · simp [abs_of_nonneg hm]
  · split
    · simp [abs_of_nonneg hm]
    · simp [hm]

lemma abs_neg_vmax_mul_npSign (m z : ℚ) (hm : 0 ≤ m) : |-m * npSign z| ≤ m := by
  have h : |-m * npSign z| = |m * npSign z| := by
    rw [neg_mul, abs_neg]
  rw [h]
  exact abs_vmax_mul_npSign m z hm

lemma abs_v_target_x_le (dyaw : ℚ) (p : Params) (vprev : ℚ) (hm : 0 ≤ p.vmax_x) :
    |v_target_x dyaw p vprev| ≤ p.vmax_x := by
  unfold v_target_x
  split
  · exact abs_vmax_mul_npSign _ _ hm
  · split
    · simpa
    · split
      · exact abs_vmax_mul_npSign _ _ hm
      · simpa

lemma abs_v_target_y_le (droll : ℚ) (p : Params) (vprev : ℚ) (hm : 0 ≤ p.vmax_y) :
    |v_target_y droll p vprev| ≤ p.vmax_y := by
  unfold v_target_y
  split
  · exact abs_neg_vmax_mul_npSign _ _ hm
  · split
    · simpa
    · split
      · exact abs_neg_vmax_mul_npSign _ _ hm
      · simpa

lemma alphaOf_mem (tau dt : ℚ) (hdt : 0 < dt) :
    0 ≤ alphaOf tau dt ∧ alphaOf tau dt ≤ 1 := by
  unfold alphaOf
  split
  · rename_i htau
    have hpos : 0 < tau + dt := by linarith
    constructor
    · positivity
    · rw [div_le_one hpos]
      linarith
  · exact ⟨by norm_num, le_refl 1⟩

lemma slew_abs_le (a b m α : ℚ) (h0 : 0 ≤ α) (h1 : α ≤ 1)
    (ha : |a| ≤ m) (hb : |b| ≤ m) : |a + (b - a) * α| ≤ m := by
  have heq : a + (b - a) * α = (1 - α) * a + α * b := by ring
  rw [heq]
  calc |(1 - α) * a + α * b| ≤ |(1 - α) * a| + |α * b| := abs_add _ _
    _ = (1 - α) * |a| + α * |b| := by
        rw [abs_mul, abs_mul, abs_of_nonneg (by linarith : (0:ℚ) ≤ 1 - α),
          abs_of_nonneg h0]
    _ ≤ (1 - α) * m + α * m := by
        have hA := mul_le_mul_of_nonneg_left ha (by linarith : (0:ℚ) ≤ 1 - α)
        have hB := mul_le_mul_of_nonneg_left hb h0
        linarith
    _ = m := by ring

/-- Claim C2: for every `dt > 0`, every parameter set (hence every `tau`),
and every previous per-axis velocity whose magnitude is at most the axis
vmax, the velocity returned by the first-order slew update inside
`update_velocity_constant` stays within vmax in magnitude on each axis:
the slew never overshoots. -/
theorem slew_never_overshoots (dyaw droll : ℚ) (p : Params) (v : ℚ × ℚ) (dt : ℚ)
    (hdt : 0 < dt) (hx : |v.1| ≤ p.vmax_x) (hy : |v.2| ≤ p.vmax_y) :
    |(update_velocity_constant dyaw droll p v dt).1| ≤ p.vmax_x ∧
      |(update_velocity_constant dyaw droll p v dt).2| ≤ p.vmax_y := by
  have hmx : 0 ≤ p.vmax_x := le_trans (abs_nonneg _) hx
  have hmy : 0 ≤ p.vmax_y := le_trans (abs_nonneg _) hy
  obtain ⟨hα0, hα1⟩ := alphaOf_mem p.tau_vel dt hdt
  exact ⟨slew_abs_le _ _ _ _ hα0 hα1 hx (abs_v_target_x_le dyaw p v.1 hmx),
    slew_abs_le _ _ _ _ hα0 hα1 hy (abs_v_target_y_le droll p v.2 hmy)⟩

/-- Witness for C2 at a concrete input: defaults, previous velocity
(200, -300), a delta past the deadzone on each axis, `dt = 1/30`. -/
theorem slew_never_overshoots_witness :
    |(update_velocity_constant 20 (-20) defaultParams (200, -300) (1/30)).1| ≤
        defaultParams.vmax_x ∧
      |(update_velocity_constant 20 (-20) defaultParams (200, -300) (1/30)).2| ≤
        defaultParams.vmax_y :=
  slew_never_overshoots 20 (-20) defaultParams (200, -300) (1/30)
    (by norm_num) (by norm_num [defaultParams, VMAX_X])
    (by norm_num [defaultParams, VMAX_Y])

/-- The parameter set used to exhibit the Y-axis hysteresis sign slip:
code defaults except `tau_vel = 0`, so the slew passes the target through. -/
def bugParams : Params :=
  { deadzone_yaw := 10, deadzone_roll := 10, hysteresis_deg := 1,
    vmax_x := 300, vmax_y := 300, tau_vel := 0 }

/-- Claim C1 (code bug evidence): inside the hysteresis band on the roll
axis (`|droll| = 21/2` with deadzone 10, hysteresis 1) with previous
velocity `(0, 100)` (non-negligible, moving in +y), the code commands
`-300` on the Y axis: the branch `v_target_y = -vmax_y * sign(v_prev_y)`
reverses the held direction instead of holding it, while the claim (and
the hold branch on the X axis, `v_target_x = vmax_x * sign(v_prev_x)`)
says the target should be `vmax * sign(v_prev) = 300`. -/
theorem hysteresis_y_axis_reverses :
    update_velocity_constant 0 (21/2) bugParams (0, 100) 1 = (0, -300) ∧
      bugParams.vmax_y * npSign 100 = 300 := by
  have habs2 : |(21/2 : ℚ)| = 21/2 := abs_of_nonneg (by norm_num)
  have habs3 : |(100 : ℚ)| = 100 := abs_of_nonneg (by norm_num)
  constructor
  · norm_num [update_velocity_constant, v_target_x, v_target_y, alphaOf,
      npSign, bugParams, habs2, habs3]
  · norm_num [npSign, bugParams]

/-! ### Calibration stage medians -/

/-- Insert `x` into an already sorted list, keeping it sorted. -/
def insertSorted (x : ℚ) : List ℚ → List ℚ
  | [] => [x]
  | y :: ys => if x ≤ y then x :: y :: ys else y :: insertSorted x ys

/-- Sort a list of samples ascending (insertion sort). -/
def sortList : List ℚ → List ℚ
  | [] => []
  | x :: xs => insertSorted x (sortList xs)

/-- The function `np.median`: middle element of the sorted samples for odd length,
mean of the two middle elements for even length. -/
def npMedian (l : List ℚ) : ℚ :=
  let s := sortList l
  let n := s.length
  if n % 2 = 1 then s.getD (n / 2) 0
  else (s.getD (n / 2 - 1) 0 + s.getD (n / 2) 0) / 2

/-- Per-axis result a calibration stage stores: the median of the collected
samples when `len(samples) > 5`, else `0.0` (with a low-confidence warning). -/
def calibStageAxis (samples : List ℚ) : ℚ :=
  if 5 < samples.length then npMedian samples else 0

/-- One calibration stage records both axes independently from its collected
yaw samples and roll samples. -/
def calibStage (samples_yaw samples_roll : List ℚ) : ℚ × ℚ :=
  (calibStageAxis samples_yaw, calibStageAxis samples_roll)

/-! ### Pose smoothing -/

/-- Yaw smoothing update of the main loop: seed with the first valid sample,
afterwards `smoothed = YAW_SMOOTHING * smoothed + (1 - YAW_SMOOTHING) * new`. -/
def yawSmoothUpdate (smoothed : Option ℚ) (yaw_new : ℚ) : ℚ :=
  match smoothed with
  | none => yaw_new
  | some s => YAW_SMOOTHING * s + (1 - YAW_SMOOTHING) * yaw_new

/-- Roll smoothing update of the main loop: seed with the first valid
sample, afterwards `smoothed = 0.5 * smoothed + 0.5 * new`. -/
def rollSmoothUpdate (smoothed : Option ℚ) (roll_new : ℚ) : ℚ :=
  match smoothed with
  | none => roll_new
  | some s => (1/2) * s + (1/2) * roll_new

/-! ### Blink window and cursor helpers -/

/-- The function `np.clip(x, lo, hi)`. -/
def clip (x lo hi : ℚ) : ℚ := min (max x lo) hi

/-- Drop entries older than `TRIPLE_BLINK_WINDOW` from the front of the
blink deque, stopping at the first entry inside the window. -/
def evictOld (t : ℚ) : List ℚ → List ℚ
  | [] => []
  | x :: rest => if TRIPLE_BLINK_WINDOW < t - x then evictOld t rest else x :: rest

/-- A bounded append, `deque(maxlen=cap).append x`: append on the right, dropping from the
left when over capacity. -/
def dequeAppend (cap : ℕ) (l : List ℚ) (x : ℚ) : List ℚ :=
  let l2 := l ++ [x]
  if cap < l2.length then l2.drop (l2.length - cap) else l2

/-- Register one blink at time `t`: evict stale entries from the front,
then append `t` into the capacity-4 deque. -/
def insertBlink (times : List ℚ) (t : ℚ) : List ℚ :=
  dequeAppend 4 (evictOld t times) t

/-- The default command name when the mode index is out of range (never
reached: the index stays in the 3-element cycle). -/
def fallbackName : String := ""

/-- The list `mode_names` as the source writes it (the comment next to it says
`0=cursor, 1=move, 2=stagerotate`). -/
def mode_names : List String := ["cursor", "move", "cursor"]

/-- Rate-limited select/click firing on a mouth-open rising edge: fire iff
the cooldown has elapsed; `click` iff the cursor sits in the bottom 15% of
the frame; the rate-limit timestamp moves to `t` only on an actual fire. -/
def select_click_edge (last_time t cursor_y h : ℚ) : Option String × ℚ :=
  if SELECT_CLICK_COOLDOWN ≤ t - last_time then
    let y_percent := cursor_y / h * 100
    (some (if (85:ℚ) ≤ y_percent then "click" else "select"), t)
  else (none, last_time)

/-! ### The main loop tick -/

/-- Per-frame measurements derived from the landmark frame by the external
detector helpers: pose estimates (which may individually fail), the mouth
aspect ratio, both per-eye aspect ratios, and the normalized brow distance. -/
structure FaceObs where
  yaw_new : Option ℚ
  roll_new : Option ℚ
  mar : ℚ
  l_ear : ℚ
  r_ear : ℚ
  brow_norm : ℚ
deriving DecidableEq

/-- The mutable state of `main_loop` that the control and gesture code
touches each tick.  `calib` holds the neutral yaw/roll pair when calibrated. -/
structure LoopState where
  cursor_x : ℚ
  cursor_y : ℚ
  v_cmd : ℚ × ℚ
  smoothed_yaw : Option ℚ
  smoothed_roll : Option ℚ
  brow_samples : List ℚ
  brow_baseline : Option ℚ
  l_run : ℕ
  r_run : ℕ
  blink_active : Bool
  blink_times : List ℚ
  triple_blink_until : ℚ
  prev_mouth_open : Bool
  prev_brow_up : Bool
  prev_triple_blink : Bool
  brow_up_start_time : Option ℚ
  brow_triggered : Bool
  last_select_click_time : ℚ
  current_mode : ℕ
  calib : Option (ℚ × ℚ)
  params : Params
deriving DecidableEq

/-- Velocity update, position integration and clamping (`update_velocity_constant`
call plus the `cursor += v*dt; clip` lines), run only when `calib` is present
and `smoothed_yaw` is set; otherwise the velocity is zeroed and the cursor
is retained.  Returns `(v_cmd, cursor_x, cursor_y)`. -/
def velPos (s : LoopState) (sy sr : Option ℚ) (dt w h : ℚ) : (ℚ × ℚ) × ℚ × ℚ :=
  match s.calib, sy with
  | some nc, some y =>
      let roll := sr.getD 0
      let v := update_velocity_constant (y - nc.1) (roll - nc.2) s.params s.v_cmd dt
      (v, clip (s.cursor_x + v.1 * dt) 0 (w - 1), clip (s.cursor_y + v.2 * dt) 0 (h - 1))
  | _, _ => ((0, 0), s.cursor_x, s.cursor_y)

/-- The face-present part of a tick (pose smoothing, gesture ratios, blink
registration and triple-blink detection, velocity/cursor update).  Returns
the updated state and the `mouth_open`, `brow_up`, `triple_blink` flags. -/
def faceTick (s : LoopState) (t dt w h : ℚ) (f : FaceObs) :
    LoopState × Bool × Bool × Bool :=
  let smoothed_yaw1 := match f.yaw_new with
    | none => s.smoothed_yaw
    | some yn => some (yawSmoothUpdate s.smoothed_yaw yn)
  let smoothed_roll1 := match f.roll_new with
    | none => s.smoothed_roll
    | some rn => some (rollSmoothUpdate s.smoothed_roll rn)
  let mouth_open : Bool := decide (MOUTH_OPEN_THRESH < f.mar)
  let eyes_open : Bool := decide (BLINK_EAR_THRESH < f.l_ear) &&
    decide (BLINK_EAR_THRESH < f.r_ear)
  let browRes : List ℚ × Option ℚ × Bool :=
    if eyes_open then
      match s.brow_baseline with
      | none =>
          let bs := dequeAppend BROW_BASELINE_FRAMES s.brow_samples f.brow_norm
          (bs, if bs.length = BROW_BASELINE_FRAMES then some (npMedian bs) else none,
            false)
      | some b => (s.brow_samples, some b,
          decide (b * (1 + BROW_UP_FACTOR) ≤ f.brow_norm))
    else (s.brow_samples, s.brow_baseline, false)
  let brow_up : Bool := if mouth_open || !eyes_open then false else browRes.2.2
  let l_run1 : ℕ := if f.l_ear < BLINK_EAR_THRESH then s.l_run + 1 else 0
  let r_run1 : ℕ := if f.r_ear < BLINK_EAR_THRESH then s.r_run + 1 else 0
  let is_blink : Bool := decide (BLINK_MIN_FRAMES ≤ l_run1) &&
    decide (BLINK_MIN_FRAMES ≤ r_run1)
  let blinkRes : List ℚ × ℚ :=
    if is_blink && !s.blink_active then
      let bt := insertBlink s.blink_times t
      if 3 ≤ bt.length ∧
          bt.getLast?.getD 0 - bt.getD (bt.length - 3) 0 ≤ TRIPLE_BLINK_WINDOW then
        (bt, t + TRIPLE_BLINK_HOLD)
      else (bt, s.triple_blink_until)
    else (s.blink_times, s.triple_blink_until)
  let blink_active1 : Bool := if is_blink && !s.blink_active then true else s.blink_active
  let blink_active2 : Bool := if !is_blink && blink_active1 then false else blink_active1
  let triple_blink : Bool := decide (t < blinkRes.2)
  let vp := velPos s smoothed_yaw1 smoothed_roll1 dt w h
  ({ s with
      cursor_x := vp.2.1
      cursor_y := vp.2.2
      v_cmd := vp.1
      smoothed_yaw := smoothed_yaw1
      smoothed_roll := smoothed_roll1
      brow_samples := browRes.1
      brow_baseline := browRes.2.1
      l_run := l_run1
      r_run := r_run1
      blink_active := blink_active2
      blink_times := blinkRes.1
      triple_blink_until := blinkRes.2 },
   mouth_open, brow_up, triple_blink)

/-- One full tick of `main_loop` at time `t` with frame delta `dt` and frame
size `w × h`: the face-present branch (or the no-face branch that zeroes the
velocity and the blink run counters), followed by the mouth-open edge, the
brow hold timer, and the triple-blink mode-cycling edge.  Returns the new
state and the discrete command names fired this tick. -/
def loopTick (s : LoopState) (t dt w h : ℚ) (face : Option FaceObs) :
    LoopState × List String :=
  let ph1 : LoopState × Bool × Bool × Bool :=
    match face with
    | none => ({ s with v_cmd := (0, 0), l_run := 0, r_run := 0 }, false, false, false)
    | some f => faceTick s t dt w h f
  let s1 := ph1.1
  let mouth_open := ph1.2.1
  let brow_up := ph1.2.2.1
  let triple_blink := ph1.2.2.2
  let mouthRes : List String × ℚ :=
    if (mouth_open != s1.prev_mouth_open) && mouth_open then
      match select_click_edge s1.last_select_click_time t s1.cursor_y h with
      | (some c, l) => ([c], l)
      | (none, l) => ([], l)
    else ([], s1.last_select_click_time)
  let prev_mouth1 : Bool := if mouth_open != s1.prev_mouth_open then mouth_open
    else s1.prev_mouth_open
  let browEdge : Option ℚ × Bool × Bool :=
    if brow_up != s1.prev_brow_up then
      if brow_up then (some t, false, brow_up) else (none, false, brow_up)
    else (s1.brow_up_start_time, s1.brow_triggered, s1.prev_brow_up)
  let browFire : List String × Bool :=
    if brow_up && browEdge.1.isSome && !browEdge.2.1 then
      if BROW_HOLD_TIME ≤ t - browEdge.1.getD 0 then (["delete"], true)
      else ([], browEdge.2.1)
    else ([], browEdge.2.1)
  let modeRes : ℕ × List String :=
    if triple_blink && !s1.prev_triple_blink then
      let m := (s1.current_mode + 1) % 3
      (m, [mode_names.getD m fallbackName])
    else (s1.current_mode, [])
  ({ s1 with
      prev_mouth_open := prev_mouth1
      last_select_click_time := mouthRes.2
      brow_up_start_time := browEdge.1
      brow_triggered := browFire.2
      prev_brow_up := browEdge.2.2
      prev_triple_blink := triple_blink
      current_mode := modeRes.1 },
   mouthRes.1 ++ browFire.1 ++ modeRes.2)

/-- Run a sequence of ticks `(t, dt, face)` through the loop, collecting
every discrete command fired. -/
def runLoop (w h : ℚ) (s : LoopState) :
    List (ℚ × ℚ × Option FaceObs) → LoopState × List String
  | [] => (s, [])
  | (t, dt, f) :: rest =>
      let r1 := loopTick s t dt w h f
      let r2 := runLoop w h r1.1 rest
      (r2.1, r1.2 ++ r2.2)

/-- The state `main_loop` starts from: cursor at the frame center, zero
velocity, nothing calibrated, nothing learned, mode 0. -/
def initState (w h : ℚ) : LoopState :=
  { cursor_x := w / 2, cursor_y := h / 2, v_cmd := (0, 0),
    smoothed_yaw := none, smoothed_roll := none,
    brow_samples := [], brow_baseline := none, l_run := 0, r_run := 0,
    blink_active := false, blink_times := [], triple_blink_until := 0,
    prev_mouth_open := false, prev_brow_up := false, prev_triple_blink := false,
    brow_up_start_time := none, brow_triggered := false,
    last_select_click_time := 0, current_mode := 0, calib := none,
    params := defaultParams }

/-! ### Claim C4: calibration stage results -/

/-- Counterexample to claim C4 as stated: a stage that collected exactly 5
valid samples on an axis (at least the claimed minimum count of 5) records
`0.0` for that axis, not the median `3` — the source guard is
`len(samples) > 5`, so 5 samples fall into the low-confidence branch. -/
theorem calib_five_samples_records_zero :
    calibStage [1, 2, 3, 4, 5] [1, 2, 3, 4, 5] = (0, 0) ∧
      npMedian [1, 2, 3, 4, 5] = 3 ∧ (0 : ℚ) ≠ 3 := by
  refine ⟨by with_unfolding_all rfl, by with_unfolding_all rfl, by norm_num⟩

/-- Claim C4 as amended: for each axis independently, the stage records the
median of the collected samples when strictly more than 5 were collected,
and `0.0` (with a low-confidence warning) when 5 or fewer were collected. -/
theorem calib_stage_result (samples_yaw samples_roll : List ℚ) :
    ((5 < samples_yaw.length → (calibStage samples_yaw samples_roll).1 =
        npMedian samples_yaw) ∧
      (samples_yaw.length ≤ 5 → (calibStage samples_yaw samples_roll).1 = 0)) ∧
    ((5 < samples_roll.length → (calibStage samples_yaw samples_roll).2 =
        npMedian samples_roll) ∧
      (samples_roll.length ≤ 5 → (calibStage samples_yaw samples_roll).2 = 0)) := by
  refine ⟨⟨fun h => ?_, fun h => ?_⟩, ⟨fun h => ?_, fun h => ?_⟩⟩ <;>
    simp only [calibStage] <;> unfold calibStageAxis
  · rw [if_pos h]
  · rw [if_neg (by omega)]
  · rw [if_pos h]
  · rw [if_neg (by omega)]

/-- Witness for C4 at concrete inputs: 7 yaw samples give their median,
2 roll samples give 0. -/
theorem calib_stage_result_witness :
    (calibStage [3, 1, 2, 5, 4, 6, 7] [1, 2]).1 = npMedian [3, 1, 2, 5, 4, 6, 7] ∧
      (calibStage [3, 1, 2, 5, 4, 6, 7] [1, 2]).2 = 0 :=
  ⟨(calib_stage_result [3, 1, 2, 5, 4, 6, 7] [1, 2]).1.1 (by norm_num),
    (calib_stage_result [3, 1, 2, 5, 4, 6, 7] [1, 2]).2.2 (by norm_num)⟩

/-! ### Claim C5: yaw smoothing has no spike rejection -/

/-- Counterexample to claim C5 as stated: with smoothed yaw `-60` and a new
sample `60` (a jump of 120 > 60 units), the main loop does not leave the
smoothed value unchanged — it applies the exponential moving average and
produces `24`. -/
theorem yaw_spike_not_rejected :
    yawSmoothUpdate (some (-60)) 60 = 24 ∧ (60 : ℚ) < |60 - (-60 : ℚ)| ∧
      (24 : ℚ) ≠ -60 := by
  refine ⟨by with_unfolding_all rfl, by rw [abs_of_nonneg] <;> norm_num, by norm_num⟩

/-- Claim C5 as amended: the loop applies the exponential moving average to
every valid new yaw sample once seeded — even one differing from the current
smoothed value by more than 60 units updates the smoothed yaw (and changes
it): no spike-rejection branch exists. -/
theorem yaw_smoothing_always_updates (s y : ℚ) (hjump : 60 < |y - s|) :
    yawSmoothUpdate (some s) y = YAW_SMOOTHING * s + (1 - YAW_SMOOTHING) * y ∧
      yawSmoothUpdate (some s) y ≠ s := by
  have hne : y ≠ s := by
    intro he
    rw [he] at hjump
    simp at hjump
    linarith
  refine ⟨rfl, ?_⟩
  unfold yawSmoothUpdate YAW_SMOOTHING
  intro he
  apply hne
  have : (7 : ℚ) / 10 * y = (7 : ℚ) / 10 * s := by linarith
  have h7 : ((7 : ℚ) / 10) ≠ 0 := by norm_num
  exact mul_left_cancel₀ h7 this

/-- Witness for C5 at a concrete input: smoothed `-60`, new sample `60`. -/
theorem yaw_smoothing_always_updates_witness :
    yawSmoothUpdate (some (-60)) 60 =
        YAW_SMOOTHING * (-60) + (1 - YAW_SMOOTHING) * 60 ∧
      yawSmoothUpdate (some (-60)) 60 ≠ -60 :=
  yaw_smoothing_always_updates (-60) 60 (by rw [abs_of_nonneg] <;> norm_num)

/-! ### Claim C8: no-face tick frame effect -/

/-- Claim C8: on a tick with no face detected, the velocity command is
forced to `(0,0)` and both per-eye blink run counters reset to 0, while the
cursor position, the smoothed yaw/roll, the blink timestamp window, the
brow baseline and the mode index are all left unchanged (and no discrete
command fires). -/
theorem no_face_tick_effect (s : LoopState) (t dt w h : ℚ) :
    (loopTick s t dt w h none).1.v_cmd = (0, 0) ∧
    (loopTick s t dt w h none).1.l_run = 0 ∧
    (loopTick s t dt w h none).1.r_run = 0 ∧
    (loopTick s t dt w h none).1.cursor_x = s.cursor_x ∧
    (loopTick s t dt w h none).1.cursor_y = s.cursor_y ∧
    (loopTick s t dt w h none).1.smoothed_yaw = s.smoothed_yaw ∧
    (loopTick s t dt w h none).1.smoothed_roll = s.smoothed_roll ∧
    (loopTick s t dt w h none).1.blink_times = s.blink_times ∧
    (loopTick s t dt w h none).1.brow_baseline = s.brow_baseline ∧
    (loopTick s t dt w h none).1.current_mode = s.current_mode ∧
    (loopTick s t dt w h none).2 = [] := by
  simp [loopTick]

/-- Witness for C8 at a concrete state (the initial state of a 100×100
frame, with one stale blink timestamp and mode 1). -/
theorem no_face_tick_effect_witness :
    (loopTick { initState 100 100 with blink_times := [5], current_mode := 1 }
        6 (1/30) 100 100 none).1.v_cmd = (0, 0) ∧
    (loopTick { initState 100 100 with blink_times := [5], current_mode := 1 }
        6 (1/30) 100 100 none).1.blink_times = [5] ∧
    (loopTick { initState 100 100 with blink_times := [5], current_mode := 1 }
        6 (1/30) 100 100 none).1.current_mode = 1 := by
  obtain ⟨h1, -, -, -, -, -, -, h8, -, h10, -⟩ :=
    no_face_tick_effect
      { initState 100 100 with blink_times := [5], current_mode := 1 }
      6 (1/30) 100 100
  exact ⟨h1, h8, h10⟩

/-! ### Claim C7: select/click cooldown -/

/-- Claim C7: with the controller ready at the first mouth-open rising edge
(the cooldown had elapsed), the first edge fires and moves the rate-limit
timestamp to `t1`; a second rising edge less than `SELECT_CLICK_COOLDOWN`
seconds later fires nothing and leaves the timestamp at `t1`, while a second
edge more than the cooldown later fires too; in general the timestamp is
updated only when an event actually fires. -/
theorem select_click_cooldown_pair (last0 t1 t2 cy1 cy2 h : ℚ)
    (hready : SELECT_CLICK_COOLDOWN ≤ t1 - last0) :
    ((select_click_edge last0 t1 cy1 h).1.isSome = true ∧
      (select_click_edge last0 t1 cy1 h).2 = t1) ∧
    (t2 - t1 < SELECT_CLICK_COOLDOWN →
      (select_click_edge t1 t2 cy2 h).1 = none ∧
        (select_click_edge t1 t2 cy2 h).2 = t1) ∧
    (SELECT_CLICK_COOLDOWN < t2 - t1 →
      (select_click_edge t1 t2 cy2 h).1.isSome = true ∧
        (select_click_edge t1 t2 cy2 h).2 = t2) ∧
    (∀ l u cy, (select_click_edge l u cy h).1 = none →
      (select_click_edge l u cy h).2 = l) := by
  unfold select_click_edge
  refine ⟨?_, fun hlt => ?_, fun hgt => ?_, fun l u cy => ?_⟩
  · rw [if_pos hready]
    exact ⟨rfl, rfl⟩
  · rw [if_neg (not_le.mpr hlt)]
    exact ⟨rfl, rfl⟩
  · rw [if_pos (le_of_lt hgt)]
    exact ⟨rfl, rfl⟩
  · by_cases hc : SELECT_CLICK_COOLDOWN ≤ u - l
    · rw [if_pos hc]
      intro hnone
      simp at hnone
    · rw [if_neg hc]
      exact fun _ => rfl

/-- Witness for C7: first edge at `t=2` (ready since the timestamp starts
at 0), second edge at `t=3`, one second later — only the first fires and
the timestamp stays at 2. -/
theorem select_click_cooldown_pair_witness :
    (select_click_edge 0 2 50 100).1.isSome = true ∧
    (select_click_edge 2 3 50 100).1 = none ∧
    (select_click_edge 2 3 50 100).2 = 2 := by
  obtain ⟨⟨hf, -⟩, hs, -, -⟩ :=
    select_click_cooldown_pair 0 2 3 50 50 100
      (by norm_num [SELECT_CLICK_COOLDOWN])
  obtain ⟨h2, h3⟩ := hs (by norm_num [SELECT_CLICK_COOLDOWN])
  exact ⟨hf, h2, h3⟩

/-! ### Claim C6: cursor bounds invariant -/

lemma clip_mem (x w : ℚ) (hw : 1 ≤ w) :
    0 ≤ clip x 0 (w - 1) ∧ clip x 0 (w - 1) < w := by
  unfold clip
  constructor
  · exact le_min (le_max_right x 0) (by linarith)
  · exact lt_of_le_of_lt (min_le_right _ _) (by linarith)

lemma velPos_cursor_mem (s : LoopState) (sy sr : Option ℚ) (dt w h : ℚ)
    (hw : 1 ≤ w) (hh : 1 ≤ h)
    (hx0 : 0 ≤ s.cursor_x) (hx1 : s.cursor_x < w)
    (hy0 : 0 ≤ s.cursor_y) (hy1 : s.cursor_y < h) :
    0 ≤ (velPos s sy sr dt w h).2.1 ∧ (velPos s sy sr dt w h).2.1 < w ∧
      0 ≤ (velPos s sy sr dt w h).2.2 ∧ (velPos s sy sr dt w h).2.2 < h := by
  rcases hcal : s.calib with - | nc <;> rcases hsy : sy with - | y <;>
    simp only [velPos, hcal, hsy]
  · exact ⟨hx0, hx1, hy0, hy1⟩
  · exact ⟨hx0, hx1, hy0, hy1⟩
  · exact ⟨hx0, hx1, hy0, hy1⟩
  · obtain ⟨a1, a2⟩ := clip_mem (s.cursor_x +
      (update_velocity_constant (y - nc.1) ((sr.getD 0) - nc.2) s.params s.v_cmd dt).1 * dt)
      w hw
    obtain ⟨b1, b2⟩ := clip_mem (s.cursor_y +
      (update_velocity_constant (y - nc.1) ((sr.getD 0) - nc.2) s.params s.v_cmd dt).2 * dt)
      h hh
    exact ⟨a1, a2, b1, b2⟩

lemma loopTick_cursor_mem (s : LoopState) (t dt w h : ℚ) (face : Option FaceObs)
    (hw : 1 ≤ w) (hh : 1 ≤ h)
    (hx0 : 0 ≤ s.cursor_x) (hx1 : s.cursor_x < w)
    (hy0 : 0 ≤ s.cursor_y) (hy1 : s.cursor_y < h) :
    0 ≤ (loopTick s t dt w h face).1.cursor_x ∧
      (loopTick s t dt w h face).1.cursor_x < w ∧
      0 ≤ (loopTick s t dt w h face).1.cursor_y ∧
      (loopTick s t dt w h face).1.cursor_y < h := by
  cases face with
  | none => simpa [loopTick] using ⟨hx0, hx1, hy0, hy1⟩
  | some f =>
      simp only [loopTick, faceTick]
      exact velPos_cursor_mem s _ _ dt w h hw hh hx0 hx1 hy0 hy1

lemma runLoop_cursor_mem (w h : ℚ) (hw : 1 ≤ w) (hh : 1 ≤ h) :
    ∀ (trace : List (ℚ × ℚ × Option FaceObs)) (s : LoopState),
      0 ≤ s.cursor_x → s.cursor_x < w → 0 ≤ s.cursor_y → s.cursor_y < h →
      0 ≤ (runLoop w h s trace).1.cursor_x ∧
        (runLoop w h s trace).1.cursor_x < w ∧
        0 ≤ (runLoop w h s trace).1.cursor_y ∧
        (runLoop w h s trace).1.cursor_y < h := by
  intro trace
  induction trace with
  | nil =>
      intro s h1 h2 h3 h4
      simpa [runLoop] using ⟨h1, h2, h3, h4⟩
  | cons td rest ih =>
      intro s h1 h2 h3 h4
      obtain ⟨t, dt, f⟩ := td
      simp only [runLoop]
      obtain ⟨a1, a2, a3, a4⟩ := loopTick_cursor_mem s t dt w h f hw hh h1 h2 h3 h4
      exact ih _ a1 a2 a3 a4

/-- Claim C6: starting with the cursor at the frame center `(w/2, h/2)`,
after every tick of the loop — face or no face, calibrated or not — the
cursor satisfies `0 ≤ x < w` and `0 ≤ y < h`, the integration step being
clamped exactly at the frame boundaries. -/
theorem cursor_always_in_bounds (w h : ℚ) (hw : 1 ≤ w) (hh : 1 ≤ h)
    (s : LoopState) (hx : s.cursor_x = w / 2) (hy : s.cursor_y = h / 2)
    (trace : List (ℚ × ℚ × Option FaceObs)) :
    0 ≤ (runLoop w h s trace).1.cursor_x ∧
      (runLoop w h s trace).1.cursor_x < w ∧
      0 ≤ (runLoop w h s trace).1.cursor_y ∧
      (runLoop w h s trace).1.cursor_y < h := by
  apply runLoop_cursor_mem w h hw hh trace s
  · rw [hx]; linarith
  · rw [hx]; linarith
  · rw [hy]; linarith
  · rw [hy]; linarith

/-- A face observation turning the head well right of neutral. -/
def obsTurn : FaceObs :=
  { yaw_new := some 40, roll_new := some 0, mar := 0,
    l_ear := 3/10, r_ear := 3/10, brow_norm := 0 }

/-- Witness for C6: a calibrated 100×100 run with a strong rightward turn
for one tick and a no-face tick keeps the cursor in bounds. -/
theorem cursor_always_in_bounds_witness :
    0 ≤ (runLoop 100 100 { initState 100 100 with calib := some (0, 0) }
        [(0, 1/30, some obsTurn), (1/30, 1/30, none)]).1.cursor_x ∧
      (runLoop 100 100 { initState 100 100 with calib := some (0, 0) }
        [(0, 1/30, some obsTurn), (1/30, 1/30, none)]).1.cursor_x < 100 ∧
      0 ≤ (runLoop 100 100 { initState 100 100 with calib := some (0, 0) }
        [(0, 1/30, some obsTurn), (1/30, 1/30, none)]).1.cursor_y ∧
      (runLoop 100 100 { initState 100 100 with calib := some (0, 0) }
        [(0, 1/30, some obsTurn), (1/30, 1/30, none)]).1.cursor_y < 100 :=
  cursor_always_in_bounds 100 100 (by norm_num) (by norm_num)
    { initState 100 100 with calib := some (0, 0) }
    (by norm_num [initState]) (by norm_num [initState])
    [(0, 1/30, some obsTurn), (1/30, 1/30, none)]

/-! ### Claim C3: triple-blink mode cycling -/

/-- A face observation with both eyes closed (ears below the blink
threshold), mouth closed. -/
def obsBlink : FaceObs :=
  { yaw_new := none, roll_new := none, mar := 0,
    l_ear := 1/10, r_ear := 1/10, brow_norm := 0 }

/-- A face observation with both eyes open, mouth closed. -/
def obsOpen : FaceObs :=
  { yaw_new := none, roll_new := none, mar := 0,
    l_ear := 3/10, r_ear := 3/10, brow_norm := 0 }

/-- A tick trace producing blink rising edges at times 0, 0.3 and 0.6
(eyes reopen between blinks), then two open ticks. -/
def trace3 : List (ℚ × ℚ × Option FaceObs) :=
  [(0, 1/30, some obsBlink), (3/20, 1/30, some obsOpen),
   (3/10, 1/30, some obsBlink), (9/20, 1/30, some obsOpen),
   (3/5, 1/30, some obsBlink), (3/4, 1/30, some obsOpen),
   (9/10, 1/30, some obsOpen)]

/-- Claim C3 (code bug evidence): blinks at `[0, 0.3, 0.6]` (within
`TRIPLE_BLINK_WINDOW = 1.2`) starting in mode index 1 (`move`) fire the
mode-change exactly once and advance the mode index by exactly one step to
2 — but the emitted command is `"cursor"`, because the source array is
`mode_names = ["cursor", "move", "cursor"]`, while its own adjacent comment
(`0=cursor, 1=move, 2=stagerotate`), its startup help text and the claim
name the third mode `stagerotate`. -/
theorem triple_blink_emits_wrong_third_mode :
    (runLoop 100 100 { initState 100 100 with current_mode := 1 } trace3).2 =
        ["cursor"] ∧
      (runLoop 100 100 { initState 100 100 with current_mode := 1 }
        trace3).1.current_mode = 2 ∧
      mode_names.getD 2 fallbackName = "cursor" ∧
        mode_names.getD 2 fallbackName ≠ "stagerotate" := by
  refine ⟨by with_unfolding_all rfl, by with_unfolding_all rfl, rfl, by decide⟩

/-! ### Claim C9: blink window ages out only at insertion time -/

/-- Counterexample to claim C9 as stated: a blink registered at time 0
followed by a no-face tick at time 2 leaves the timestamp 0 in the blink
window, even though its age (2 seconds) exceeds `TRIPLE_BLINK_WINDOW`
(1.2 s): eviction happens only when a new blink is inserted, so between
insertions the window does retain over-age timestamps. -/
theorem blink_window_retains_stale :
    (runLoop 100 100 (initState 100 100)
        [(0, 1/30, some obsBlink), (2, 1/30, none)]).1.blink_times = [0] ∧
      TRIPLE_BLINK_WINDOW < 2 - 0 := by
  refine ⟨by with_unfolding_all rfl, by norm_num [TRIPLE_BLINK_WINDOW]⟩

lemma evictOld_age (t : ℚ) : ∀ (l : List ℚ), l.Sorted (· ≤ ·) →
    ∀ x ∈ evictOld t l, t - x ≤ TRIPLE_BLINK_WINDOW := by
  intro l
  induction l with
  | nil =>
      intro _ x hx
      simp [evictOld] at hx
  | cons a rest ih =>
      intro hs x hx
      rw [evictOld] at hx
      by_cases hc : TRIPLE_BLINK_WINDOW < t - a
      · rw [if_pos hc] at hx
        exact ih (List.Sorted.of_cons hs) x hx
      · rw [if_neg hc] at hx
        rcases List.mem_cons.mp hx with rfl | hxr
        · linarith [not_lt.mp hc]
        · have hax : a ≤ x := (List.sorted_cons.mp hs).1 x hxr
          have hca := not_lt.mp hc
          linarith

/-- Claim C9 as amended: timestamps older than `TRIPLE_BLINK_WINDOW` are
dropped from the front before every insertion, so immediately after a blink
is inserted at time `t` every timestamp retained in the (time-ordered)
window is within the window of `t`; between insertions, however, entries
may age past the bound (see the counterexample). -/
theorem blink_window_fresh_after_insert (times : List ℚ) (t : ℚ)
    (hs : times.Sorted (· ≤ ·)) :
    ∀ x ∈ insertBlink times t, t - x ≤ TRIPLE_BLINK_WINDOW := by
  intro x hx
  simp only [insertBlink, dequeAppend] at hx
  have hx2 : x ∈ evictOld t times ++ [t] := by
    by_cases hc : 4 < (evictOld t times ++ [t]).length
    · rw [if_pos hc] at hx
      exact List.mem_of_mem_drop hx
    · rw [if_neg hc] at hx
      exact hx
  rcases List.mem_append.mp hx2 with hxl | hxr
  · exact evictOld_age t times hs x hxl
  · have hxt : x = t := by simpa using hxr
    subst hxt
    norm_num [TRIPLE_BLINK_WINDOW]

/-- Witness for C9: inserting a blink at time 2 into the sorted window `[1]`
keeps the retained timestamp 1 within the window of time 2. -/
theorem blink_window_fresh_after_insert_witness :
    (2 : ℚ) - 1 ≤ TRIPLE_BLINK_WINDOW :=
  blink_window_fresh_after_insert [1] 2 (List.sorted_singleton 1) 1
    (by
      have he : insertBlink [1] 2 = [1, 2] := by with_unfolding_all rfl
      rw [he]
      simp)

/-! ### Claim C10: aspect ratios never divide by zero -/

/-- Mouth landmark indices of the FaceMesh topology. -/
def MOUTH_L : ℕ := 61
def MOUTH_R : ℕ := 291
def MOUTH_UP : ℕ := 13
def MOUTH_DN : ℕ := 14

/-- Convert a normalized landmark to pixel coordinates (`lm[i].x * w, lm[i].y * h`). -/
noncomputable def pixelPt (lm : ℕ → ℝ × ℝ) (i : ℕ) (w h : ℝ) : ℝ × ℝ :=
  ((lm i).1 * w, (lm i).2 * h)

/-- The helper `dist(a, b) = np.linalg.norm(a - b)` on 2D points. -/
noncomputable def dist (a b : ℝ × ℝ) : ℝ :=
  Real.sqrt ((a.1 - b.1) ^ 2 + (a.2 - b.2) ^ 2)

lemma dist_nonneg' (a b : ℝ × ℝ) : 0 ≤ dist a b := Real.sqrt_nonneg _

/-- The mouth-aspect-ratio denominator: horizontal mouth separation plus
the `1e-6` offset. -/
noncomputable def mouthHoriz (lm : ℕ → ℝ × ℝ) (w h : ℝ) : ℝ :=
  dist (pixelPt lm MOUTH_L w h) (pixelPt lm MOUTH_R w h) + 1 / 1000000

/-- The function `mouth_aspect_ratio(lm, w, h)`: vertical mouth separation over the
offset horizontal separation. -/
noncomputable def mouth_aspect_ratio (lm : ℕ → ℝ × ℝ) (w h : ℝ) : ℝ :=
  dist (pixelPt lm MOUTH_UP w h) (pixelPt lm MOUTH_DN w h) / mouthHoriz lm w h

/-- The eye-aspect-ratio denominator: horizontal eye width (inner to outer
corner) plus the `1e-6` offset. -/
noncomputable def eyeHoriz (lm : ℕ → ℝ × ℝ) (inn outn : ℕ) (w h : ℝ) : ℝ :=
  dist (pixelPt lm inn w h) (pixelPt lm outn w h) + 1 / 1000000

/-- The function `eye_aspect_ratio(lm, up, dn, inn, outn, w, h)`: vertical eye opening
over the offset horizontal eye width. -/
noncomputable def eye_aspect_ratio (lm : ℕ → ℝ × ℝ) (up dn inn outn : ℕ)
    (w h : ℝ) : ℝ :=
  dist (pixelPt lm up w h) (pixelPt lm dn w h) / eyeHoriz lm inn outn w h

/-- Claim C10: for every landmark frame (any normalized points, any frame
size) and any landmark indices, both aspect-ratio denominators carry the
`+1e-6` offset and are therefore strictly positive — never zero, even when
the horizontal landmark pair coincides — and both ratios are finite
non-negative reals. -/
theorem aspect_ratios_total (lm : ℕ → ℝ × ℝ) (w h : ℝ) (up dn inn outn : ℕ) :
    mouthHoriz lm w h ≠ 0 ∧ 0 ≤ mouth_aspect_ratio lm w h ∧
      eyeHoriz lm inn outn w h ≠ 0 ∧ 0 ≤ eye_aspect_ratio lm up dn inn outn w h := by
  have hm : 0 < mouthHoriz lm w h := by
    unfold mouthHoriz
    have h0 := dist_nonneg' (pixelPt lm MOUTH_L w h) (pixelPt lm MOUTH_R w h)
    linarith
  have he : ∀ i o : ℕ, 0 < eyeHoriz lm i o w h := by
    intro i o
    unfold eyeHoriz
    have h0 := dist_nonneg' (pixelPt lm i w h) (pixelPt lm o w h)
    linarith
  refine ⟨ne_of_gt hm, ?_, ne_of_gt (he inn outn), ?_⟩
  · exact div_nonneg (dist_nonneg' _ _) (le_of_lt hm)
  · exact div_nonneg (dist_nonneg' _ _) (le_of_lt (he inn outn))

end AlexVision
